import Mathlib

/-!
Verification of the dooya-rs485 curtain controller against its
natural-language specification.

The development shallowly embeds the protocol engine of the repository:

* `calculate_crc`, `crcBytes` — `DooyaController.calculate_crc`
  (dooya_rs485.py lines 336-347): CRC16/Modbus, poly 0xA001, initial
  0xFFFF, result serialized little-endian.
* `decode_response` — the response validation of
  `DooyaController._send_rs485_command_locked`
  (dooya_rs485.py lines 299-321).
* `parse_cover_position` — the response interpretation of
  `DooyaController.read_cover_position` (dooya_rs485.py lines 163-201).
* `send_command_with_retry` — `DooyaController._send_command_with_retry`
  (dooya_rs485.py lines 231-248), with the transport abstracted as a
  function from attempt index to attempt outcome.
* `program_device_address` — `DooyaController.program_device_address`
  (dooya_rs485.py lines 493-580), with the I/O environment (listen-window
  reads, drain, confirmation read) abstracted as explicit data.
* `async_update` — `DooyaCover.async_update` (cover.py lines 186-250),
  the cover state machine, as a pure transition function on the entity
  state driven by the freshly polled readings.
* `async_update_data` — `DooyaDataUpdateCoordinator._async_update_data`
  (__init__.py lines 142-187), the status poller cycle.

Machine integers are modelled as `Nat` with explicit masking where the
source overflows; byte strings are `List Nat`; fallible operations return
`Option` or `Except`.
-/

namespace Dooya

/-! ## Protocol constants (const.py) -/

def START_CODE : Nat := 0x55

def MOTOR_STATUS_STOPPED : Nat := 0x00
def MOTOR_STATUS_RUNNING : Nat := 0x01
def MOTOR_STATUS_ERROR : Nat := 0x02

/-- Modelled from the spec: the four `DEVICE_ADDRESS_*` constants are
imported by dooya_rs485.py from const.py but are absent from const.py in
the sources; spec section 6 gives function `0x04` as the device-initiated
address broadcast and `0x02` as the register-write function, and the
write-address payload addresses the address register (`0x00`) with a
two-byte length. Their concrete values are irrelevant to the claims
proved below. -/
def DEVICE_ADDRESS_SLAVE_REQUEST : Nat := 0x04

def DEVICE_ADDRESS_WRITE : Nat := 0x02

def DEVICE_ADDRESS_DATA_ADDR : Nat := 0x00

def DEVICE_ADDRESS_DATA_LENGTH : Nat := 0x02

/-! ## Frame codec: CRC16/Modbus (dooya_rs485.py lines 336-347) -/

/-- One inner-loop iteration of `calculate_crc`: shift right, conditionally
xor with the polynomial 0xA001. -/
def crcStep (crc : Nat) : Nat :=
  if crc &&& 0x0001 = 1 then (crc >>> 1) ^^^ 0xA001 else crc >>> 1

/-- Fold one data byte into the running CRC: xor it in, then run the inner
loop eight times. -/
def crcByte (crc b : Nat) : Nat :=
  crcStep (crcStep (crcStep (crcStep (crcStep (crcStep (crcStep (crcStep (crc ^^^ b))))))))

/-- `DooyaController.calculate_crc`: CRC16/Modbus with initial value
0xFFFF over the data bytes. -/
def calculate_crc (data : List Nat) : Nat :=
  data.foldl crcByte 0xFFFF

/-- The CRC serialized as two bytes little-endian, as by
`crc.to_bytes(2, byteorder="little")`. -/
def crcBytes (data : List Nat) : List Nat :=
  [calculate_crc data % 256, calculate_crc data / 256 % 256]

/-- Response validation of `_send_rs485_command_locked`
(dooya_rs485.py lines 299-321): under 2 bytes is too short; exactly 2
bytes is a status-only response returned as-is; 4 or more bytes must end
in the CRC of everything before; any other length (i.e. 3) falls through
every check and is returned as-is. -/
def decode_response (response : List Nat) : Option (List Nat) :=
  if response.length < 2 then none
  else if response.length = 2 then some response
  else if 4 ≤ response.length then
    if response.drop (response.length - 2) = crcBytes (response.take (response.length - 2))
    then some response
    else none
  else some response

/-- Response interpretation of `read_cover_position`
(dooya_rs485.py lines 163-201), applied to the value returned by
`_send_command_with_retry`: `None` and status-only (length 2) responses
yield nothing, as do responses shorter than 6 bytes; otherwise the byte at
index 5 is the position, with 0xFF (stroke not set) and values above 0x64
rejected. -/
def parse_cover_position (response : Option (List Nat)) : Option Nat :=
  match response with
  | none => none
  | some r =>
    if r.length = 2 then none
    else if r.length < 6 then none
    else
      let position := r.getD 5 0
      if position = 0xFF then none
      else if 0x64 < position then none
      else some position

/-! ## Codec theorems -/

/-- C1 (amended): response decoding accepts a 2-byte response as-is with
no CRC validation; a response of 4 or more bytes succeeds exactly when the
last two bytes equal the CRC recomputed over all preceding bytes and fails
(returning none) on mismatch; a response shorter than 2 bytes fails as too
short; and a 3-byte response falls through every check and is returned
as-is without CRC validation. -/
theorem decode_response_spec (r : List Nat) :
    (r.length < 2 → decode_response r = none) ∧
    (r.length = 2 → decode_response r = some r) ∧
    (r.length = 3 → decode_response r = some r) ∧
    (4 ≤ r.length →
      (r.drop (r.length - 2) = crcBytes (r.take (r.length - 2)) →
        decode_response r = some r) ∧
      (r.drop (r.length - 2) ≠ crcBytes (r.take (r.length - 2)) →
        decode_response r = none)) := by
  refine ⟨?_, ?_, ?_, ?_⟩
  · intro h
    simp [decode_response, h]
  · intro h
    simp [decode_response, h]
  · intro h
    simp [decode_response, h]
  · intro h4
    have h1 : ¬ r.length < 2 := by omega
    have h2 : r.length ≠ 2 := by omega
    constructor
    · intro hc
      simp [decode_response, h1, h2, h4, hc]
    · intro hc
      simp [decode_response, h1, h2, h4, hc]

/-- Witness for `decode_response_spec`, exercising every branch at a
concrete input: a 1-byte response is rejected, 2-byte and 3-byte responses
are returned as-is, a 5-byte response with the correct trailing CRC is
accepted, and the same response with the last byte tampered is rejected. -/
theorem decode_response_spec_witness :
    decode_response [0x10] = none ∧
    decode_response [0x10, 0x20] = some [0x10, 0x20] ∧
    decode_response [0x55, 0x01, 0x64] = some [0x55, 0x01, 0x64] ∧
    decode_response [0x55, 0x01, 0x02, 225, 129] = some [0x55, 0x01, 0x02, 225, 129] ∧
    decode_response [0x55, 0x01, 0x02, 225, 130] = none :=
  ⟨(decode_response_spec [0x10]).1 (by decide),
   (decode_response_spec [0x10, 0x20]).2.1 rfl,
   (decode_response_spec [0x55, 0x01, 0x64]).2.2.1 rfl,
   ((decode_response_spec [0x55, 0x01, 0x02, 225, 129]).2.2.2 (by decide)).1 (by decide),
   ((decode_response_spec [0x55, 0x01, 0x02, 225, 130]).2.2.2 (by decide)).2 (by decide)⟩

/-- C1 counterexample: the claim says a response shorter than 4 bytes when
data was expected fails (returns none), but the concrete 3-byte response
`[0x55, 0x01, 0x02]` — neither status-only nor long enough to carry a
CRC — is returned as-is by the decoder, not rejected. -/
theorem decode_response_length_three_cex :
    decode_response [0x55, 0x01, 0x02] = some [0x55, 0x01, 0x02] ∧
    ¬ decode_response [0x55, 0x01, 0x02] = none := by decide

/-- C2: for every data response of at least 6 bytes, the position byte at
index 5 maps as: 0xFF yields none, every value up to 100 yields itself
unchanged, and every value of 101 or more (so in particular 101..=254)
yields none — never clamped to 100. -/
theorem parse_cover_position_spec (r : List Nat) (h : 6 ≤ r.length) :
    (r.getD 5 0 = 0xFF → parse_cover_position (some r) = none) ∧
    (r.getD 5 0 ≤ 100 → parse_cover_position (some r) = some (r.getD 5 0)) ∧
    (101 ≤ r.getD 5 0 → parse_cover_position (some r) = none) := by
  have h2 : r.length ≠ 2 := by omega
  have h6 : ¬ r.length < 6 := by omega
  refine ⟨?_, ?_, ?_⟩ <;> intro hb <;>
    simp only [parse_cover_position, if_neg h2, if_neg h6]
  · rw [if_pos hb]
  · rw [if_neg (show ¬ r.getD 5 0 = 0xFF by omega),
      if_neg (show ¬ 0x64 < r.getD 5 0 by omega)]
  · by_cases hff : r.getD 5 0 = 0xFF
    · rw [if_pos hff]
    · rw [if_neg hff, if_pos (show 0x64 < r.getD 5 0 by omega)]

/-- Witness for `parse_cover_position_spec` at concrete 8-byte responses
carrying position bytes 0xFF, 48 and 101. -/
theorem parse_cover_position_spec_witness :
    parse_cover_position (some [0x55, 1, 1, 2, 1, 0xFF, 9, 9]) = none ∧
    parse_cover_position (some [0x55, 1, 1, 2, 1, 48, 9, 9]) = some 48 ∧
    parse_cover_position (some [0x55, 1, 1, 2, 1, 101, 9, 9]) = none :=
  ⟨(parse_cover_position_spec [0x55, 1, 1, 2, 1, 0xFF, 9, 9] (by decide)).1 rfl,
   (parse_cover_position_spec [0x55, 1, 1, 2, 1, 48, 9, 9] (by decide)).2.1 (by decide),
   (parse_cover_position_spec [0x55, 1, 1, 2, 1, 101, 9, 9] (by decide)).2.2 (by decide)⟩

/-- C4: CRC round-trip — appending `calculate_crc d` (serialized
little-endian) to any byte sequence `d` produces a byte string on which
the decoder's CRC check succeeds: the CRC recomputed over all bytes except
the last two equals the trailing two bytes, and (whenever the framed
message is long enough to be a data response, i.e. `d` has at least 2
bytes) `decode_response` accepts the whole message. -/
theorem crc_roundtrip (d : List Nat) :
    (d ++ crcBytes d).drop ((d ++ crcBytes d).length - 2)
      = crcBytes ((d ++ crcBytes d).take ((d ++ crcBytes d).length - 2)) ∧
    (2 ≤ d.length →
      decode_response (d ++ crcBytes d) = some (d ++ crcBytes d)) := by
  have hc2 : (crcBytes d).length = 2 := rfl
  have hlen : (d ++ crcBytes d).length = d.length + 2 := by
    simp [hc2]
  have ht : (d ++ crcBytes d).take ((d ++ crcBytes d).length - 2) = d := by
    rw [hlen]
    simp
  have hd : (d ++ crcBytes d).drop ((d ++ crcBytes d).length - 2) = crcBytes d := by
    rw [hlen]
    simp
  have hcrc : (d ++ crcBytes d).drop ((d ++ crcBytes d).length - 2)
      = crcBytes ((d ++ crcBytes d).take ((d ++ crcBytes d).length - 2)) := by
    rw [ht, hd]
  refine ⟨hcrc, ?_⟩
  intro hdlen
  have hlt : ¬ (d ++ crcBytes d).length < 2 := by omega
  have hne : (d ++ crcBytes d).length ≠ 2 := by omega
  have h4 : 4 ≤ (d ++ crcBytes d).length := by omega
  unfold decode_response
  rw [if_neg hlt, if_neg hne, if_pos h4, if_pos hcrc]

/-- Witness for `crc_roundtrip`: framing the concrete command
`[0x55, 0x02, 0x03, 0x01]` with its CRC yields a message the decoder
accepts. -/
theorem crc_roundtrip_witness :
    decode_response ([0x55, 0x02, 0x03, 0x01] ++ crcBytes [0x55, 0x02, 0x03, 0x01])
      = some ([0x55, 0x02, 0x03, 0x01] ++ crcBytes [0x55, 0x02, 0x03, 0x01]) :=
  (crc_roundtrip [0x55, 0x02, 0x03, 0x01]).2 (by decide)

/-! ## Cover state machine (cover.py lines 186-250) -/

/-- The discrete movement states of the cover entity
(`STATE_OPEN`, `STATE_CLOSED`, `STATE_OPENING`, `STATE_CLOSING`,
`STATE_UNKNOWN` and the custom `STATE_ERROR`). -/
inductive CoverSt
  | Open
  | Closed
  | Opening
  | Closing
  | Unknown
  | Error
deriving DecidableEq, Repr

/-- The mutable fields of `DooyaCover` that `async_update` reads and
writes. The `_error_count` counter, entity name and device-version field
play no role in the update's state transition and are omitted. -/
structure CoverData where
  state : CoverSt
  current_position : Option Nat
  target_position : Option Nat
  last_position : Option Nat
  motor_status : Option Nat
  active_switch_status : Option Nat
  passive_switch_status : Option Nat
  handle_status : Option Nat
deriving DecidableEq, Repr

/-- `DooyaCover.async_update` on a cycle whose reads complete without
raising: the freshly polled readings (`pos`, `motor`, the two switches and
the handle status) drive one transition of the cover state machine.
Mirrors cover.py lines 195-248: the device-status fields are stored first;
a motor error forces state Error, clears both positions and returns early
(skipping the `last_position` update); otherwise the position rules run
and `last_position` is set to the new reading at the end. The switch and
handle branches in the source only log and are not reproduced. -/
def async_update (s : CoverData) (pos motor active_switch passive_switch handle : Option Nat) :
    CoverData :=
  let s0 := { s with
    motor_status := motor
    active_switch_status := active_switch
    passive_switch_status := passive_switch
    handle_status := handle }
  if motor = some MOTOR_STATUS_ERROR then
    { s0 with state := CoverSt.Error, current_position := none, target_position := none }
  else
    let s1 :=
      match pos with
      | none =>
        { s0 with state := CoverSt.Unknown, current_position := none, target_position := none }
      | some p =>
        if p = 0 then
          { s0 with state := CoverSt.Closed, current_position := some 0, target_position := none }
        else if p = 100 then
          { s0 with state := CoverSt.Open, current_position := some 100, target_position := none }
        else
          let s2 := { s0 with current_position := some p }
          match s2.target_position with
          | some t =>
            if ((p : Int) - (t : Int)).natAbs ≤ 5 then
              { s2 with
                state := if 50 < p then CoverSt.Open else CoverSt.Closed
                target_position := none }
            else
              { s2 with state := if p < t then CoverSt.Opening else CoverSt.Closing }
          | none =>
            match s2.last_position with
            | some lp =>
              if lp < p then { s2 with state := CoverSt.Opening }
              else if p < lp then { s2 with state := CoverSt.Closing }
              else
                { s2 with state := if 50 < p then CoverSt.Open else CoverSt.Closed }
            | none =>
              { s2 with state := if 50 < p then CoverSt.Open else CoverSt.Closed }
    { s1 with last_position := pos }

/-- C3 counterexample: the claim says that when the motor status is not
Error and the polled position is None the pending `target_position` is
left unchanged, but updating a concrete state holding target 50 with
position None and motor status Stopped clears the target to none. -/
theorem async_update_position_none_clears_target_cex :
    (async_update ⟨CoverSt.Opening, some 40, some 50, some 30, some 0, none, none, none⟩
        none (some 0) none none none).target_position = none ∧
    (CoverData.mk CoverSt.Opening (some 40) (some 50) (some 30) (some 0) none none
        none).target_position = some 50 := by decide

/-- C3 (amended): whenever the motor status is not Error and the polled
position is None, the state becomes Unknown and `target_position` is
cleared (along with `current_position`), not left unchanged. -/
theorem async_update_position_none (s : CoverData) (motor a p h : Option Nat)
    (hm : motor ≠ some MOTOR_STATUS_ERROR) :
    (async_update s none motor a p h).state = CoverSt.Unknown ∧
    (async_update s none motor a p h).target_position = none ∧
    (async_update s none motor a p h).current_position = none := by
  simp only [async_update, if_neg hm]
  exact ⟨trivial, trivial, trivial⟩

/-- Witness for `async_update_position_none` at a concrete state with a
pending target and motor status Running. -/
theorem async_update_position_none_witness :
    (async_update ⟨CoverSt.Closing, some 20, some 10, some 25, some 1, none, none, none⟩
        none (some 1) none none none).state = CoverSt.Unknown ∧
    (async_update ⟨CoverSt.Closing, some 20, some 10, some 25, some 1, none, none, none⟩
        none (some 1) none none none).target_position = none ∧
    (async_update ⟨CoverSt.Closing, some 20, some 10, some 25, some 1, none, none, none⟩
        none (some 1) none none none).current_position = none :=
  async_update_position_none
    ⟨CoverSt.Closing, some 20, some 10, some 25, some 1, none, none, none⟩
    (some 1) none none none (by decide)

/-- C5: for every intermediate position p (0 < p < 100) with a pending
target t and a non-error motor status: within the 5-point tolerance the
state settles to Open when p > 50 and to Closed otherwise and the target
is cleared; outside the tolerance the state becomes Opening when p < t and
Closing when p > t (or p = t) and the target is kept. -/
theorem async_update_intermediate_target (s : CoverData) (motor a ph h : Option Nat)
    (p t : Nat) (hm : motor ≠ some MOTOR_STATUS_ERROR) (h0 : 0 < p) (h100 : p < 100)
    (ht : s.target_position = some t) :
    (((p : Int) - (t : Int)).natAbs ≤ 5 →
      (async_update s (some p) motor a ph h).state
          = (if 50 < p then CoverSt.Open else CoverSt.Closed) ∧
      (async_update s (some p) motor a ph h).target_position = none) ∧
    (5 < ((p : Int) - (t : Int)).natAbs →
      (async_update s (some p) motor a ph h).state
          = (if p < t then CoverSt.Opening else CoverSt.Closing) ∧
      (async_update s (some p) motor a ph h).target_position = some t) := by
  have hp0 : p ≠ 0 := by omega
  have hp100 : p ≠ 100 := by omega
  constructor
  · intro habs
    simp only [async_update, if_neg hm, if_neg hp0, if_neg hp100, ht, if_pos habs]
    exact ⟨trivial, trivial⟩
  · intro habs
    have habs' : ¬ ((p : Int) - (t : Int)).natAbs ≤ 5 := by omega
    simp only [async_update, if_neg hm, if_neg hp0, if_neg hp100, ht, if_neg habs']
    exact ⟨trivial, trivial⟩

/-- Witness for `async_update_intermediate_target`: feeding position 48
with pending target 50 settles to Closed and clears the target, and
feeding position 30 with pending target 80 keeps Opening and keeps the
target. -/
theorem async_update_intermediate_target_witness :
    ((async_update ⟨CoverSt.Closing, some 60, some 50, some 60, some 0, none, none, none⟩
        (some 48) (some 0) none none none).state = CoverSt.Closed ∧
      (async_update ⟨CoverSt.Closing, some 60, some 50, some 60, some 0, none, none, none⟩
        (some 48) (some 0) none none none).target_position = none) ∧
    ((async_update ⟨CoverSt.Unknown, some 20, some 80, some 20, some 1, none, none, none⟩
        (some 30) (some 1) none none none).state = CoverSt.Opening ∧
      (async_update ⟨CoverSt.Unknown, some 20, some 80, some 20, some 1, none, none, none⟩
        (some 30) (some 1) none none none).target_position = some 80) := by
  constructor
  · have h := (async_update_intermediate_target
      ⟨CoverSt.Closing, some 60, some 50, some 60, some 0, none, none, none⟩
      (some 0) none none none 48 50 (by decide) (by decide) (by decide) rfl).1 (by decide)
    simpa using h
  · have h := (async_update_intermediate_target
      ⟨CoverSt.Unknown, some 20, some 80, some 20, some 1, none, none, none⟩
      (some 1) none none none 30 80 (by decide) (by decide) (by decide) rfl).2 (by decide)
    simpa using h

/-- C9 counterexample: the claim says `last_position` is updated to the
newly read position at the end of every completed poll cycle including the
motor-error cycle, but on a motor-error cycle the update returns early:
with previous `last_position` 30 and a fresh reading of 60 under motor
status Error, `last_position` stays 30 rather than becoming 60. -/
theorem async_update_motor_error_last_position_cex :
    (async_update ⟨CoverSt.Opening, some 40, some 50, some 30, some 0, none, none, none⟩
        (some 60) (some 2) none none none).last_position = some 30 ∧
    ¬ (async_update ⟨CoverSt.Opening, some 40, some 50, some 30, some 0, none, none, none⟩
        (some 60) (some 2) none none none).last_position = some 60 := by decide

/-- C9 (amended): `last_position` is updated to the newly read position at
the end of every completed poll cycle in which the motor status is not
Error; the motor-error cycle returns early and leaves `last_position`
unchanged. -/
theorem async_update_last_position (s : CoverData) (pos motor a p h : Option Nat) :
    (motor ≠ some MOTOR_STATUS_ERROR →
      (async_update s pos motor a p h).last_position = pos) ∧
    (motor = some MOTOR_STATUS_ERROR →
      (async_update s pos motor a p h).last_position = s.last_position) := by
  constructor
  · intro hm
    simp only [async_update, if_neg hm]
  · intro hm
    simp only [async_update, if_pos hm]

/-- Witness for `async_update_last_position` at concrete inputs: a
non-error cycle stores the new reading, an error cycle keeps the old
one. -/
theorem async_update_last_position_witness :
    (async_update ⟨CoverSt.Open, some 100, none, some 90, some 0, none, none, none⟩
        (some 95) (some 0) none none none).last_position = some 95 ∧
    (async_update ⟨CoverSt.Open, some 100, none, some 90, some 0, none, none, none⟩
        (some 95) (some 2) none none none).last_position = some 90 :=
  ⟨(async_update_last_position
      ⟨CoverSt.Open, some 100, none, some 90, some 0, none, none, none⟩
      (some 95) (some 0) none none none).1 (by decide),
   (async_update_last_position
      ⟨CoverSt.Open, some 100, none, some 90, some 0, none, none, none⟩
      (some 95) (some 2) none none none).2 rfl⟩

/-- C10: for every intermediate position p (0 < p < 100) with no pending
target and no previous reading (first reading ever), the state settles
immediately by majority side: Open when p > 50, Closed otherwise. -/
theorem async_update_first_reading (s : CoverData) (motor a ph h : Option Nat) (p : Nat)
    (hm : motor ≠ some MOTOR_STATUS_ERROR) (h0 : 0 < p) (h100 : p < 100)
    (ht : s.target_position = none) (hl : s.last_position = none) :
    (async_update s (some p) motor a ph h).state
      = (if 50 < p then CoverSt.Open else CoverSt.Closed) := by
  have hp0 : p ≠ 0 := by omega
  have hp100 : p ≠ 100 := by omega
  simp only [async_update, if_neg hm, if_neg hp0, if_neg hp100, ht, hl]

/-- Witness for `async_update_first_reading`: the very first reading of 70
settles to Open, and of 30 settles to Closed. -/
theorem async_update_first_reading_witness :
    (async_update ⟨CoverSt.Unknown, none, none, none, none, none, none, none⟩
        (some 70) (some 0) none none none).state = CoverSt.Open ∧
    (async_update ⟨CoverSt.Unknown, none, none, none, none, none, none, none⟩
        (some 30) (some 1) none none none).state = CoverSt.Closed := by
  constructor
  · have h := async_update_first_reading
      ⟨CoverSt.Unknown, none, none, none, none, none, none, none⟩
      (some 0) none none none 70 (by decide) (by decide) (by decide) rfl rfl
    simpa using h
  · have h := async_update_first_reading
      ⟨CoverSt.Unknown, none, none, none, none, none, none, none⟩
      (some 1) none none none 30 (by decide) (by decide) (by decide) rfl rfl
    simpa using h

/-! ## Command executor retry (dooya_rs485.py lines 231-248) -/

/-- Maximum number of retries for commands (dooya_rs485.py line 36). -/
def MAX_RETRIES : Nat := 3

/-- Outcome of one call to `send_rs485_command` inside the retry loop:
either a response, the explicit failure value None, or a raised
exception. -/
inductive AttemptOutcome
  | ok (resp : List Nat)
  | noResponse
  | raised
deriving DecidableEq, Repr

/-- The response carried by a successful attempt, if any. Both
`noResponse` and `raised` count as failures in the retry loop: the loop
checks `response is not None` and catches every exception. -/
def attemptResponse : AttemptOutcome → Option (List Nat)
  | .ok r => some r
  | .noResponse => none
  | .raised => none

/-- The retry loop of `_send_command_with_retry`, with the transport
abstracted as a map from attempt index to attempt outcome: starting at
attempt `start` with `fuel` attempts remaining, return the first
successful response together with the number of attempts made, or
`(none, fuel)` when every attempt failed. The inter-attempt sleep has no
observable effect on the result and is not modelled. -/
def send_retry_aux (transport : Nat → AttemptOutcome) (start fuel : Nat) :
    Option (List Nat) × Nat :=
  match fuel with
  | 0 => (none, 0)
  | fuel' + 1 =>
    match attemptResponse (transport start) with
    | some r => (some r, 1)
    | none =>
      let rest := send_retry_aux transport (start + 1) fuel'
      (rest.1, rest.2 + 1)

/-- `DooyaController._send_command_with_retry`: up to `MAX_RETRIES`
attempts, returning the pair of the result and the number of attempts
made. -/
def send_command_with_retry (transport : Nat → AttemptOutcome) :
    Option (List Nat) × Nat :=
  send_retry_aux transport 0 MAX_RETRIES

lemma send_retry_aux_all_fail (transport : Nat → AttemptOutcome) (start fuel : Nat)
    (hfail : ∀ i, i < fuel → attemptResponse (transport (start + i)) = none) :
    send_retry_aux transport start fuel = (none, fuel) := by
  induction fuel generalizing start with
  | zero => rfl
  | succ n ih =>
    have h0 : attemptResponse (transport start) = none := by
      simpa using hfail 0 (Nat.succ_pos n)
    have hrest : send_retry_aux transport (start + 1) n = (none, n) := by
      refine ih (start + 1) ?_
      intro i hi
      have := hfail (i + 1) (by omega)
      simpa [Nat.add_assoc, Nat.add_comm 1 i] using this
    simp [send_retry_aux, h0, hrest]

lemma send_retry_aux_first_ok (transport : Nat → AttemptOutcome) (start fuel i : Nat)
    (r : List Nat) (hi : i < fuel)
    (hfail : ∀ j, j < i → attemptResponse (transport (start + j)) = none)
    (hok : transport (start + i) = .ok r) :
    send_retry_aux transport start fuel = (some r, i + 1) := by
  induction i generalizing start fuel with
  | zero =>
    obtain ⟨fuel', rfl⟩ : ∃ f, fuel = f + 1 := ⟨fuel - 1, by omega⟩
    have h0 : attemptResponse (transport start) = some r := by
      simpa [attemptResponse] using congrArg attemptResponse hok
    simp [send_retry_aux, h0]
  | succ n ih =>
    obtain ⟨fuel', rfl⟩ : ∃ f, fuel = f + 1 := ⟨fuel - 1, by omega⟩
    have h0 : attemptResponse (transport start) = none := by
      simpa using hfail 0 (Nat.succ_pos n)
    have hrest : send_retry_aux transport (start + 1) fuel' = (some r, n + 1) := by
      refine ih (start + 1) fuel' (by omega) ?_ ?_
      · intro j hj
        have := hfail (j + 1) (by omega)
        simpa [Nat.add_assoc, Nat.add_comm 1 j] using this
      · have := hok
        simpa [Nat.add_assoc, Nat.add_comm 1 n] using this
    simp [send_retry_aux, h0, hrest]

/-- C6: when every one of the `MAX_RETRIES` (3) attempts fails — whether
by returning no response or by raising — the executor makes exactly 3
attempts and returns the explicit failure value none, never propagating an
exception (the model is a total function, mirroring the source's blanket
except clause); conversely when the attempts up to index i fail and
attempt i succeeds with response r, it returns r after exactly i + 1
attempts, making no further ones. -/
theorem send_command_with_retry_spec (transport : Nat → AttemptOutcome) :
    ((∀ i, i < MAX_RETRIES → attemptResponse (transport i) = none) →
      send_command_with_retry transport = (none, MAX_RETRIES)) ∧
    (∀ i r, i < MAX_RETRIES → (∀ j, j < i → attemptResponse (transport j) = none) →
      transport i = .ok r →
      send_command_with_retry transport = (some r, i + 1)) := by
  constructor
  · intro hfail
    have := send_retry_aux_all_fail transport 0 MAX_RETRIES (by simpa using hfail)
    simpa [send_command_with_retry] using this
  · intro i r hi hfail hok
    have := send_retry_aux_first_ok transport 0 MAX_RETRIES i r hi
      (by simpa using hfail) (by simpa using hok)
    simpa [send_command_with_retry] using this

/-- Witness for `send_command_with_retry_spec`: a transport that always
raises yields failure after exactly 3 attempts, and a transport that fails
once and then answers `[0x55, 0x00]` yields that response after exactly 2
attempts. -/
theorem send_command_with_retry_spec_witness :
    send_command_with_retry (fun _ => AttemptOutcome.raised) = (none, 3) ∧
    send_command_with_retry
        (fun i => if i = 0 then AttemptOutcome.noResponse else AttemptOutcome.ok [0x55, 0x00])
      = (some [0x55, 0x00], 2) := by
  constructor
  · have h := (send_command_with_retry_spec (fun _ => AttemptOutcome.raised)).1
      (fun i _ => rfl)
    simpa [MAX_RETRIES] using h
  · have h := (send_command_with_retry_spec
        (fun i => if i = 0 then AttemptOutcome.noResponse else AttemptOutcome.ok [0x55, 0x00])).2
      1 [0x55, 0x00] (by decide) (by intro j hj; interval_cases j; rfl) rfl
    simpa using h

/-! ## Address provisioning (dooya_rs485.py lines 493-580) -/

/-- Outcome of one bounded read (or of the write-drain) on the
connection: a timeout, delivered bytes, or a raised exception. -/
inductive ReadOutcome
  | timeout
  | data (b : List Nat)
  | raised
deriving DecidableEq, Repr

/-- The I/O environment seen by one run of `program_device_address`:
whether `ensure_connected` succeeds, the sequence of read outcomes
observed during the 10-second listen window (each with a 1-second
timeout; the list being exhausted models the window expiring), whether
the write and drain of the address command succeed, and the outcome of
the 5-second confirmation read. -/
structure ProgEnv where
  connect_ok : Bool
  listen : List ReadOutcome
  drain_ok : Bool
  confirm : ReadOutcome
deriving DecidableEq, Repr

/-- Result of the listen loop: the expected broadcast was matched, the
window expired without a match, or a read raised (propagating to the
outer handler). -/
inductive ListenResult
  | matched
  | exhausted
  | raised
deriving DecidableEq, Repr

/-- The broadcast frame header the provisioning listen loop waits for:
start code, default address (0xFE, 0xFE), slave-request function, data
address 0x01 (dooya_rs485.py line 522). -/
def expected_request : List Nat :=
  [START_CODE, 0xFE, 0xFE, DEVICE_ADDRESS_SLAVE_REQUEST, 0x01]

/-- The listen loop of `program_device_address` (dooya_rs485.py lines
525-536): a per-read timeout continues the loop, a response is accepted
when it is non-empty and starts with the expected broadcast, any other
response continues the loop, and a non-timeout exception escapes. -/
def listen_for_request : List ReadOutcome → ListenResult
  | [] => ListenResult.exhausted
  | ReadOutcome.timeout :: rest => listen_for_request rest
  | ReadOutcome.raised :: _ => ListenResult.raised
  | ReadOutcome.data b :: rest =>
    if b ≠ [] ∧ expected_request.isPrefixOf b = true then ListenResult.matched
    else listen_for_request rest

/-- The write-address command sent after the broadcast matches
(dooya_rs485.py lines 539-554): addressed to the temporary address
(0x00, 0x00), carrying the two new address bytes, with the CRC
appended. -/
def address_write_command (new_id_l new_id_h : Nat) : List Nat :=
  [START_CODE, 0x00, 0x00, DEVICE_ADDRESS_WRITE, DEVICE_ADDRESS_DATA_ADDR,
    DEVICE_ADDRESS_DATA_LENGTH, new_id_l, new_id_h]
    ++ crcBytes [START_CODE, 0x00, 0x00, DEVICE_ADDRESS_WRITE, DEVICE_ADDRESS_DATA_ADDR,
      DEVICE_ADDRESS_DATA_LENGTH, new_id_l, new_id_h]

/-- `DooyaController.program_device_address` as a function from the
stored address pair, the two candidate bytes and the I/O environment to
the success flag and the resulting stored address pair. Mirrors
dooya_rs485.py lines 493-580: candidate bytes equal to 0x00 or 0xFF are
rejected before any I/O; a connection failure, an exhausted or raising
listen window, a failed drain, and a timed-out, empty or raising
confirmation read all return failure with the stored address untouched;
only a non-empty confirmation response returns success and stores both
new bytes. -/
def program_device_address (device_id_l device_id_h new_id_l new_id_h : Nat)
    (env : ProgEnv) : Bool × Nat × Nat :=
  if new_id_l = 0x00 ∨ new_id_l = 0xFF ∨ new_id_h = 0x00 ∨ new_id_h = 0xFF then
    (false, device_id_l, device_id_h)
  else if env.connect_ok = false then
    (false, device_id_l, device_id_h)
  else
    match listen_for_request env.listen with
    | ListenResult.exhausted => (false, device_id_l, device_id_h)
    | ListenResult.raised => (false, device_id_l, device_id_h)
    | ListenResult.matched =>
      if env.drain_ok = false then
        (false, device_id_l, device_id_h)
      else
        match env.confirm with
        | ReadOutcome.data b =>
          if b ≠ [] then (true, new_id_l, new_id_h)
          else (false, device_id_l, device_id_h)
        | ReadOutcome.timeout => (false, device_id_l, device_id_h)
        | ReadOutcome.raised => (false, device_id_l, device_id_h)

lemma program_device_address_cases (idl idh nl nh : Nat) (env : ProgEnv) :
    program_device_address idl idh nl nh env = (false, idl, idh) ∨
    (program_device_address idl idh nl nh env = (true, nl, nh) ∧
      ¬ (nl = 0x00 ∨ nl = 0xFF ∨ nh = 0x00 ∨ nh = 0xFF) ∧
      listen_for_request env.listen = ListenResult.matched ∧
      ∃ b, env.confirm = ReadOutcome.data b ∧ b ≠ []) := by
  unfold program_device_address
  by_cases hv : nl = 0x00 ∨ nl = 0xFF ∨ nh = 0x00 ∨ nh = 0xFF
  · rw [if_pos hv]
    exact Or.inl rfl
  · rw [if_neg hv]
    by_cases hc : env.connect_ok = false
    · rw [if_pos hc]
      exact Or.inl rfl
    · rw [if_neg hc]
      rcases hlisten : listen_for_request env.listen with _ | _ | _
      · by_cases hd : env.drain_ok = false
        · rw [if_pos hd]
          exact Or.inl rfl
        · rw [if_neg hd]
          rcases hconf : env.confirm with _ | b | _
          · exact Or.inl rfl
          · by_cases hb : b ≠ []
            · exact Or.inr ⟨by simp [hb], hv, rfl, b, rfl, hb⟩
            · refine Or.inl ?_
              simp [hb]
          · exact Or.inl rfl
      · exact Or.inl rfl
      · exact Or.inl rfl

/-- C7: address provisioning is atomic over the stored address pair —
a candidate byte equal to 0x00 or 0xFF yields failure immediately; on
every failure the stored pair is returned unchanged; and success implies
the listen window matched the broadcast, the confirmation read delivered
non-empty bytes, and both stored bytes are the new values together. -/
theorem program_device_address_atomic (idl idh nl nh : Nat) (env : ProgEnv) :
    (nl = 0x00 ∨ nl = 0xFF ∨ nh = 0x00 ∨ nh = 0xFF →
      program_device_address idl idh nl nh env = (false, idl, idh)) ∧
    ((program_device_address idl idh nl nh env).1 = false →
      (program_device_address idl idh nl nh env).2 = (idl, idh)) ∧
    ((program_device_address idl idh nl nh env).1 = true →
      (program_device_address idl idh nl nh env).2 = (nl, nh) ∧
      listen_for_request env.listen = ListenResult.matched ∧
      ∃ b, env.confirm = ReadOutcome.data b ∧ b ≠ []) := by
  rcases program_device_address_cases idl idh nl nh env with hfail | ⟨hsucc, hv, hl, hb⟩
  · refine ⟨fun _ => hfail, ?_, ?_⟩
    · intro _
      rw [hfail]
    · intro htrue
      rw [hfail] at htrue
      exact Bool.noConfusion htrue
  · refine ⟨fun hv2 => absurd hv2 hv, ?_, ?_⟩
    · intro hfalse
      rw [hsucc] at hfalse
      exact Bool.noConfusion hfalse
    · intro _
      rw [hsucc]
      exact ⟨rfl, hl, hb⟩

/-- Witness for `program_device_address_atomic`: candidate byte 0x00 is
rejected with the stored pair (1, 2) untouched; a run whose listen window
sees the expected broadcast and whose confirmation read delivers a
non-empty response succeeds and stores (3, 4); and a run whose listen
window only times out fails with the stored pair untouched. -/
theorem program_device_address_atomic_witness :
    program_device_address 1 2 0x00 4
        ⟨true, [ReadOutcome.data [0x55, 0xFE, 0xFE, 0x04, 0x01]], true,
          ReadOutcome.data [0x55, 0x01]⟩ = (false, 1, 2) ∧
    (program_device_address 1 2 3 4
        ⟨true, [ReadOutcome.timeout, ReadOutcome.data [0x55, 0xFE, 0xFE, 0x04, 0x01]], true,
          ReadOutcome.data [0x55, 0x01]⟩).2 = (3, 4) ∧
    (program_device_address 1 2 3 4
        ⟨true, [ReadOutcome.timeout, ReadOutcome.timeout], true,
          ReadOutcome.data [0x55, 0x01]⟩).2 = (1, 2) := by
  refine ⟨?_, ?_, ?_⟩
  · exact (program_device_address_atomic 1 2 0x00 4
      ⟨true, [ReadOutcome.data [0x55, 0xFE, 0xFE, 0x04, 0x01]], true,
        ReadOutcome.data [0x55, 0x01]⟩).1 (Or.inl rfl)
  · exact ((program_device_address_atomic 1 2 3 4
      ⟨true, [ReadOutcome.timeout, ReadOutcome.data [0x55, 0xFE, 0xFE, 0x04, 0x01]], true,
        ReadOutcome.data [0x55, 0x01]⟩).2.2 (by decide)).1
  · exact (program_device_address_atomic 1 2 3 4
      ⟨true, [ReadOutcome.timeout, ReadOutcome.timeout], true,
        ReadOutcome.data [0x55, 0x01]⟩).2.1 (by decide)

/-! ## Status poller (dooya_rs485 __init__.py lines 142-187) -/

/-- The aggregate result of one full polling cycle, as assembled by
`DooyaController.read_all_status` (dooya_rs485.py lines 473-491): each
field is independently nullable. -/
structure PollData where
  position : Option Nat
  motor_status : Option Nat
  active_switch : Option Nat
  passive_switch : Option Nat
  handle_status : Option Nat
deriving DecidableEq, Repr

/-- Consecutive-error ceiling of the coordinator
(`_max_consecutive_errors`, __init__.py line 140). -/
def MAX_CONSECUTIVE_ERRORS : Nat := 5

/-- The state the coordinator carries between poll cycles: the
consecutive-error counter and the last successful result. The `data`
attribute is maintained by the update-coordinator framework, which stores
each successful return value; `none` models the initial state where no
successful result exists yet, in which case a failed cycle returns an
empty result. -/
structure CoordState where
  consecutive_errors : Nat
  data : Option PollData
deriving DecidableEq, Repr

/-- What one poll cycle observes: the reconnection attempt failed while
disconnected, the battery of reads completed with aggregate result `d`,
or reading raised. -/
inductive CycleOutcome
  | connect_failed
  | read_ok (d : PollData)
  | raised
deriving DecidableEq, Repr

/-- `DooyaDataUpdateCoordinator._async_update_data` as a transition on
the coordinator state: an `Except.error` result models raising
`UpdateFailed`, and `Except.ok v` models returning normally, with
`v = none` standing for the empty dict returned when no previous
successful result exists. A failed cycle (reconnect failure or a raised
read) increments the counter, raises once the counter reaches the
ceiling, and otherwise returns the previous result; a successful cycle
resets the counter to zero and returns (and stores) the fresh result. -/
def async_update_data (s : CoordState) (o : CycleOutcome) :
    Except Unit (Option PollData) × CoordState :=
  match o with
  | CycleOutcome.read_ok d =>
    (Except.ok (some d), { consecutive_errors := 0, data := some d })
  | CycleOutcome.connect_failed =>
    let n := s.consecutive_errors + 1
    if MAX_CONSECUTIVE_ERRORS ≤ n then
      (Except.error (), { s with consecutive_errors := n })
    else
      (Except.ok s.data, { s with consecutive_errors := n })
  | CycleOutcome.raised =>
    let n := s.consecutive_errors + 1
    if MAX_CONSECUTIVE_ERRORS ≤ n then
      (Except.error (), { s with consecutive_errors := n })
    else
      (Except.ok s.data, { s with consecutive_errors := n })

/-- C8: a failed poll cycle increments the consecutive-error counter and
returns the previous successful result (or the empty result, modelled as
none, when none exists) as long as the counter stays below the ceiling of
5; the cycle on which the counter reaches 5 raises the hard failure; any
successful cycle resets the counter to zero; and a failure immediately
after a success never raises the hard failure. -/
theorem async_update_data_spec (s : CoordState) (o : CycleOutcome) :
    ((o = CycleOutcome.connect_failed ∨ o = CycleOutcome.raised) →
      s.consecutive_errors + 1 < MAX_CONSECUTIVE_ERRORS →
      async_update_data s o
        = (Except.ok s.data, ⟨s.consecutive_errors + 1, s.data⟩)) ∧
    ((o = CycleOutcome.connect_failed ∨ o = CycleOutcome.raised) →
      MAX_CONSECUTIVE_ERRORS ≤ s.consecutive_errors + 1 →
      (async_update_data s o).1 = Except.error ()) ∧
    (∀ d, o = CycleOutcome.read_ok d →
      async_update_data s o = (Except.ok (some d), ⟨0, some d⟩)) ∧
    (∀ d o2, (o2 = CycleOutcome.connect_failed ∨ o2 = CycleOutcome.raised) →
      (async_update_data (async_update_data s (CycleOutcome.read_ok d)).2 o2).1
        ≠ Except.error ()) := by
  refine ⟨?_, ?_, ?_, ?_⟩
  · rintro (rfl | rfl) hlt <;>
    · simp only [async_update_data]
      rw [if_neg (by omega)]
  · rintro (rfl | rfl) hge <;>
    · simp only [async_update_data]
      rw [if_pos (by omega)]
  · rintro d rfl
    rfl
  · rintro d o2 (rfl | rfl) <;>
    · intro hcontra
      simp only [async_update_data] at hcontra
      rw [if_neg (by simp [MAX_CONSECUTIVE_ERRORS])] at hcontra
      exact Except.noConfusion hcontra

/-- Witness for `async_update_data_spec`: from a state with 1 prior error
and a stored result, a raising cycle returns the stored result with the
counter at 2; from a state with 4 prior errors, a failed reconnect raises
the hard failure; a successful cycle resets the counter; and a reconnect
failure right after a success does not raise. -/
theorem async_update_data_spec_witness :
    async_update_data ⟨1, some ⟨some 50, some 0, none, none, none⟩⟩ CycleOutcome.raised
      = (Except.ok (some ⟨some 50, some 0, none, none, none⟩),
          ⟨2, some ⟨some 50, some 0, none, none, none⟩⟩) ∧
    (async_update_data ⟨4, none⟩ CycleOutcome.connect_failed).1 = Except.error () ∧
    async_update_data ⟨3, none⟩ (CycleOutcome.read_ok ⟨some 7, some 1, none, none, none⟩)
      = (Except.ok (some ⟨some 7, some 1, none, none, none⟩),
          ⟨0, some ⟨some 7, some 1, none, none, none⟩⟩) ∧
    (async_update_data
        (async_update_data ⟨4, none⟩
          (CycleOutcome.read_ok ⟨some 7, some 1, none, none, none⟩)).2
        CycleOutcome.connect_failed).1 ≠ Except.error () :=
  ⟨(async_update_data_spec ⟨1, some ⟨some 50, some 0, none, none, none⟩⟩
      CycleOutcome.raised).1 (Or.inr rfl) (by decide),
   (async_update_data_spec ⟨4, none⟩ CycleOutcome.connect_failed).2.1
      (Or.inl rfl) (by decide),
   (async_update_data_spec ⟨3, none⟩
      (CycleOutcome.read_ok ⟨some 7, some 1, none, none, none⟩)).2.2.1
      ⟨some 7, some 1, none, none, none⟩ rfl,
   (async_update_data_spec ⟨4, none⟩
      (CycleOutcome.read_ok ⟨some 7, some 1, none, none, none⟩)).2.2.2
      ⟨some 7, some 1, none, none, none⟩ CycleOutcome.connect_failed (Or.inl rfl)⟩

end Dooya
